import Mathlib

/-! Shallow embedding of the libvirt volume drivers from
`nova/virt/libvirt/volume.py` (the `LibvirtVolumeDriver` family).

External effects (running the `iscsiadm` initiator tool, sleeping,
writing the per-device sysfs deletion control file) are recorded in an
ordered effect trace; the outside world (exit codes of tool invocations,
filesystem probe answers, the block-device listing, the EC2 identifier
translation) is an `Env` of oracle functions.  Filesystem existence
probes are indexed by a probe counter (the "clock") because the Python
code re-checks `os.path.exists` over time inside the device-wait loop.

Each Lean definition is translated from the corresponding Python
function; fallible code returns `Except Err`.
-/

namespace NovaVolume

/-- Errors raised by the embedded code: `ProcessExecutionError` with the
offending exit code (raised by `utils.execute` on a disallowed exit
code; the specification calls this `InitiatorToolError`), and
`NovaException` with its message string (the specification's
`DeviceNotFound`). -/
inductive Err where
  | processExecutionError : Nat → Err
  | novaException : String → Err
  deriving DecidableEq

/-- Observable external effects, in program order: an `iscsiadm`
invocation recorded with the target IQN, target portal and subcommand
arguments; a `time.sleep` of the given duration; the elevated-privilege
`cp` that writes its input string into the sysfs per-device deletion
control file. -/
inductive Effect where
  | iscsiadm : String → String → List String → Effect
  | sleep : Nat → Effect
  | cpDeleteWrite : String → String → Effect
  deriving DecidableEq

instance {ε α : Type} [DecidableEq ε] [DecidableEq α] : DecidableEq (Except ε α) := fun a b =>
  match a, b with
  | Except.ok x, Except.ok y =>
    if h : x = y then isTrue (by rw [h]) else isFalse (by intro hc; cases hc; exact h rfl)
  | Except.error x, Except.error y =>
    if h : x = y then isTrue (by rw [h]) else isFalse (by intro hc; cases hc; exact h rfl)
  | Except.ok _, Except.error _ => isFalse (by intro hc; cases hc)
  | Except.error _, Except.ok _ => isFalse (by intro hc; cases hc)

/-- The nested `connection_info['data']` bag, with the fields the
drivers read or write.  `target_lun` is optional because the code uses
`get('target_lun', 0)` on connect and a key-presence test on
disconnect. -/
structure ConnData where
  volume_id : String
  target_portal : String
  target_iqn : String
  target_lun : Option Nat
  auth_method : Option String
  auth_username : String
  auth_password : String
  device_path : String
  name : String
  auth_enabled : Bool
  secret_type : String
  secret_uuid : String
  deriving DecidableEq

/-- The caller-supplied `connection_info` record. -/
structure ConnectionInfo where
  driver_volume_type : String
  data : ConnData
  serial : Option String
  deriving DecidableEq

/-- The configuration flags the drivers read (`FLAGS`).  The
`volume_name_template` is a Python format string with one `%s` slot,
modelled as the text before and after that slot. -/
structure Flags where
  volume_group : String
  volume_name_template_pre : String
  volume_name_template_post : String
  num_iscsi_scan_tries : Nat

/-- The external world: exit code of an `iscsiadm` invocation keyed by
(target IQN, target portal, subcommand); `os.path.exists` answers
indexed by a probe counter; `os.path.islink` answers;
`os.path.basename(os.path.realpath(...))`; the block-device-listing
collaborator `self.connection.get_all_block_devices()`; the pure
`ec2utils.id_to_ec2_vol_id` translation; and
`virtutils.pick_disk_driver_name`. -/
structure Env where
  exitCode : String → String → List String → Nat
  pathExistsAt : Nat → String → Bool
  islink : String → Bool
  realpathBasename : String → String
  blockDevices : List String
  ec2VolId : String → String
  pickDiskDriverName : Bool → String

/-- The `LibvirtConfigGuestDisk` descriptor, with unset string fields
as `""` and unset optional fields as `none`. -/
structure GuestDiskConf where
  source_type : String
  driver_name : String
  driver_format : String
  driver_cache : String
  source_path : String
  source_protocol : String
  source_host : String
  target_dev : String
  target_bus : String
  serial : Option String
  auth_username : Option String
  auth_secret_type : Option String
  auth_secret_uuid : Option String
  deriving DecidableEq

/-- A fresh `LibvirtConfigGuestDisk()` with no field set. -/
def emptyGuestDiskConf : GuestDiskConf :=
  { source_type := "", driver_name := "", driver_format := "", driver_cache := ""
    source_path := "", source_protocol := "", source_host := ""
    target_dev := "", target_bus := "", serial := none
    auth_username := none, auth_secret_type := none, auth_secret_uuid := none }

/-- The UUID-template candidate path
`"/dev/%s/%s" % (FLAGS.volume_group, FLAGS.volume_name_template) % volume_id`. -/
def uuidPath (flags : Flags) (volume_id : String) : String :=
  "/dev/" ++ flags.volume_group ++ "/" ++ flags.volume_name_template_pre
    ++ volume_id ++ flags.volume_name_template_post

/-- The EC2-style legacy candidate path
`"/dev/%s/%s" % (FLAGS.volume_group, ec2utils.id_to_ec2_vol_id(volume_id))`. -/
def ec2Path (flags : Flags) (env : Env) (volume_id : String) : String :=
  "/dev/" ++ flags.volume_group ++ "/" ++ env.ec2VolId volume_id

/-- The rewritten IQN computed on the EC2 migration branch of the iSCSI
connect: `'iqn.2010-10.org.openstack:%s' % FLAGS.volume_name_template %
device_ec2id` — note that the full EC2 device path, not the volume
identifier, is substituted into the template. -/
def migratedIqn (flags : Flags) (dev : String) : String :=
  "iqn.2010-10.org.openstack:" ++ flags.volume_name_template_pre
    ++ dev ++ flags.volume_name_template_post

/-- The device-name stem shared by all LUNs of one (portal, IQN) pair:
`"/dev/disk/by-path/ip-%s-iscsi-%s-lun-"`. -/
def lunPathStem (portal iqn : String) : String :=
  "/dev/disk/by-path/ip-" ++ portal ++ "-iscsi-" ++ iqn ++ "-lun-"

/-- The canonical by-path device node of one LUN. -/
def byPathDevice (portal iqn : String) (lun : Nat) : String :=
  lunPathStem portal iqn ++ toString lun

/-- Python's `str.startswith`, at the character level. -/
def strStartsWith (s stem : String) : Bool := stem.data.isPrefixOf s.data

namespace LibvirtVolumeDriver

/-- Embeds `LibvirtVolumeDriver.connect_volume`: builds the block-type
guest disk descriptor, preferring an existing UUID-template link, then
an existing EC2-style legacy link, over the record's `device_path`.
Returns the descriptor together with the record data as left behind
(unchanged — this method performs no record mutation). -/
def connect_volume (flags : Flags) (env : Env) (ci : ConnectionInfo)
    (mount_device : String) : GuestDiskConf × ConnData :=
  let d := ci.data
  let local_volume_ec2id := ec2Path flags env d.volume_id
  let local_volume_uuid := uuidPath flags d.volume_id
  let source :=
    if env.islink local_volume_uuid then local_volume_uuid
    else if env.islink local_volume_ec2id then local_volume_ec2id
    else d.device_path
  ({ emptyGuestDiskConf with
      source_type := "block"
      driver_name := env.pickDiskDriverName true
      driver_format := "raw"
      driver_cache := "none"
      source_path := source
      target_dev := mount_device
      target_bus := "virtio"
      serial := ci.serial }, d)

/-- Embeds `LibvirtVolumeDriver.disconnect_volume`: a no-op (`pass`),
returning the record data unchanged. -/
def disconnect_volume (ci : ConnectionInfo) (_mount_device : String) : ConnData :=
  ci.data

end LibvirtVolumeDriver

namespace LibvirtFakeVolumeDriver

/-- Embeds `LibvirtFakeVolumeDriver.connect_volume`. -/
def connect_volume (ci : ConnectionInfo) (mount_device : String) :
    GuestDiskConf × ConnData :=
  ({ emptyGuestDiskConf with
      source_type := "network"
      driver_name := "qemu"
      driver_format := "raw"
      driver_cache := "none"
      source_protocol := "fake"
      source_host := "fake"
      target_dev := mount_device
      target_bus := "virtio"
      serial := ci.serial }, ci.data)

end LibvirtFakeVolumeDriver

namespace LibvirtNetVolumeDriver

/-- Embeds `LibvirtNetVolumeDriver.connect_volume`: network-type
descriptor, copying auth fields only when the record marks auth as
enabled. -/
def connect_volume (env : Env) (ci : ConnectionInfo) (mount_device : String) :
    GuestDiskConf × ConnData :=
  let d := ci.data
  let base :=
    { emptyGuestDiskConf with
        source_type := "network"
        driver_name := env.pickDiskDriverName false
        driver_format := "raw"
        driver_cache := "none"
        source_protocol := ci.driver_volume_type
        source_host := d.name
        target_dev := mount_device
        target_bus := "virtio"
        serial := ci.serial }
  if d.auth_enabled then
    ({ base with
        auth_username := some d.auth_username
        auth_secret_type := some d.secret_type
        auth_secret_uuid := some d.secret_uuid }, d)
  else (base, d)

end LibvirtNetVolumeDriver

namespace LibvirtISCSIVolumeDriver

/-- Embeds `LibvirtISCSIVolumeDriver._run_iscsiadm`: one `iscsiadm -m
node -T <iqn> -p <portal> <cmd...>` invocation, allowed to exit with a
code in `check` (the `check_exit_code` argument; call sites that pass
nothing get the default `[0]` here).  Any other exit code raises
`ProcessExecutionError`.  The invocation itself is always recorded. -/
def run_iscsiadm (env : Env) (iqn portal : String) (cmd : List String)
    (check : List Nat) : Except Err Unit × List Effect :=
  (if env.exitCode iqn portal cmd ∈ check then Except.ok ()
   else Except.error (Err.processExecutionError (env.exitCode iqn portal cmd)),
   [Effect.iscsiadm iqn portal cmd])

/-- Embeds `LibvirtISCSIVolumeDriver._iscsiadm_update`:
`('--op', 'update', '-n', key, '-v', value)`. -/
def iscsiadm_update (env : Env) (iqn portal key value : String)
    (check : List Nat) : Except Err Unit × List Effect :=
  run_iscsiadm env iqn portal ["--op", "update", "-n", key, "-v", value] check

/-- The try/except block at the start of `connect_volume`: a
zero-argument status probe; exit 0 continues; a
`ProcessExecutionError` with exit code 21 or 255 triggers one
`('--op', 'new')` invocation; any other exit code re-raises. -/
def probe_or_new (env : Env) (iqn portal : String) :
    Except Err Unit × List Effect :=
  match run_iscsiadm env iqn portal [] [0] with
  | (Except.ok _, tr) => (Except.ok (), tr)
  | (Except.error (Err.processExecutionError c), tr) =>
    if c = 21 ∨ c = 255 then
      let r := run_iscsiadm env iqn portal ["--op", "new"] [0]
      (r.1, tr ++ r.2)
    else (Except.error (Err.processExecutionError c), tr)
  | (Except.error e, tr) => (Except.error e, tr)

/-- The auth block of `connect_volume`: when the record has an
`auth_method`, three `--op update` invocations (method, username,
password), each requiring exit 0. -/
def apply_auth (env : Env) (d : ConnData) : Except Err Unit × List Effect :=
  match d.auth_method with
  | none => (Except.ok (), [])
  | some m =>
    match iscsiadm_update env d.target_iqn d.target_portal
        "node.session.auth.authmethod" m [0] with
    | (Except.error e, tr) => (Except.error e, tr)
    | (Except.ok _, tr1) =>
      match iscsiadm_update env d.target_iqn d.target_portal
          "node.session.auth.username" d.auth_username [0] with
      | (Except.error e, tr) => (Except.error e, tr1 ++ tr)
      | (Except.ok _, tr2) =>
        let r := iscsiadm_update env d.target_iqn d.target_portal
          "node.session.auth.password" d.auth_password [0]
        (r.1, tr1 ++ tr2 ++ r.2)

/-- The straight-line head of `connect_volume` before the device wait:
probe/create, auth updates, `--login` (tolerating 0 and 255), and the
`node.startup automatic` update (requiring exit 0). -/
def pre_stages (env : Env) (d : ConnData) : Except Err Unit × List Effect :=
  match probe_or_new env d.target_iqn d.target_portal with
  | (Except.error e, tr) => (Except.error e, tr)
  | (Except.ok _, tr1) =>
    match apply_auth env d with
    | (Except.error e, tr) => (Except.error e, tr1 ++ tr)
    | (Except.ok _, tr2) =>
      match run_iscsiadm env d.target_iqn d.target_portal ["--login"] [0, 255] with
      | (Except.error e, tr) => (Except.error e, tr1 ++ tr2 ++ tr)
      | (Except.ok _, tr3) =>
        let r := iscsiadm_update env d.target_iqn d.target_portal
          "node.startup" "automatic" [0]
        (r.1, tr1 ++ tr2 ++ tr3 ++ r.2)

/-- The device-wait loop of `connect_volume` (`while not
os.path.exists(host_device)`), with the try counter and the probe
clock explicit.  The loop runs at most `maxTries` full iterations
because `tries` is incremented each time and the raise guard fires
once `maxTries ≤ tries`; it is entered with `fuel = maxTries + 1`,
which that guard makes sufficient, and the fuel-exhausted value
coincides with the guard's raise.  Each iteration re-checks existence,
issues one `--rescan` (requiring exit 0), increments `tries`, and
sleeps `tries ** 2` when the path is still absent.  Returns the
result, the final probe clock and the effect trace. -/
def waitLoop (env : Env) (iqn portal dev : String) (maxTries : Nat) :
    Nat → Nat → Nat → Except Err Unit × Nat × List Effect
  | 0, _, clock =>
    (Except.error (Err.novaException ("iSCSI device not found at " ++ dev)),
     clock, [])
  | fuel + 1, tries, clock =>
    if env.pathExistsAt clock dev then (Except.ok (), clock + 1, [])
    else if maxTries ≤ tries then
      (Except.error (Err.novaException ("iSCSI device not found at " ++ dev)),
       clock + 1, [])
    else
      match run_iscsiadm env iqn portal ["--rescan"] [0] with
      | (Except.error e, tr) => (Except.error e, clock + 1, tr)
      | (Except.ok _, tr) =>
        if env.pathExistsAt (clock + 1) dev then
          let r := waitLoop env iqn portal dev maxTries fuel (tries + 1) (clock + 2)
          (r.1, r.2.1, tr ++ r.2.2)
        else
          let r := waitLoop env iqn portal dev maxTries fuel (tries + 1) (clock + 2)
          (r.1, r.2.1,
           tr ++ Effect.sleep ((tries + 1) * (tries + 1)) :: r.2.2)

/-- The device-wait loop entered with `tries = 0` and enough fuel for
its `maxTries` bound. -/
def waitForDevice (env : Env) (iqn portal dev : String) (maxTries clock : Nat) :
    Except Err Unit × Nat × List Effect :=
  waitLoop env iqn portal dev maxTries (maxTries + 1) 0 clock

/-- Embeds `LibvirtISCSIVolumeDriver.connect_volume`: session
probe/create, auth, login, startup-mode update, EC2 legacy-path
substitution (which overwrites `target_iqn` in the record data and
polls the EC2 device path instead), the device-wait loop, the
`device_path` write-back into the record data, and the base-class
descriptor construction.  Probe clock 0 is the
`os.path.exists(device_ec2id)` check; the loop's checks start at
clock 1.  Returns the result, the record data as left behind by the
call (the Python code mutates the caller's dict in place), and the
effect trace. -/
def connect_volume (flags : Flags) (env : Env) (ci : ConnectionInfo)
    (mount_device : String) :
    Except Err GuestDiskConf × ConnData × List Effect :=
  let d := ci.data
  match pre_stages env d with
  | (Except.error e, tr) => (Except.error e, d, tr)
  | (Except.ok _, tr1) =>
    let host0 := byPathDevice d.target_portal d.target_iqn (d.target_lun.getD 0)
    let device_ec2id := ec2Path flags env d.volume_id
    let p :=
      if env.pathExistsAt 0 device_ec2id then
        ({ d with target_iqn := migratedIqn flags device_ec2id }, device_ec2id)
      else (d, host0)
    match waitForDevice env p.1.target_iqn p.1.target_portal p.2
        flags.num_iscsi_scan_tries 1 with
    | (Except.error e, _, tr2) => (Except.error e, p.1, tr1 ++ tr2)
    | (Except.ok _, _, tr2) =>
      let d2 := { p.1 with device_path := p.2 }
      (Except.ok (LibvirtVolumeDriver.connect_volume flags env
          { ci with data := d2 } mount_device).1,
       d2, tr1 ++ tr2)

/-- Embeds `LibvirtISCSIVolumeDriver.disconnect_volume`: if no listed
block device still starts with this (portal, IQN)'s LUN stem, tear the
session down (`node.startup manual`, `--logout`, `--op delete`, each
tolerating 0/21/255); otherwise, when the record carries a
`target_lun`, write "1" into that LUN device's sysfs deletion control
file if it exists, and when it carries none, return without action. -/
def disconnect_volume (env : Env) (ci : ConnectionInfo) (_mount_device : String) :
    Except Err Unit × ConnData × List Effect :=
  let d := ci.data
  let device_stem := lunPathStem d.target_portal d.target_iqn
  let devices := env.blockDevices.filter (fun dev => strStartsWith dev device_stem)
  if devices.isEmpty then
    match iscsiadm_update env d.target_iqn d.target_portal
        "node.startup" "manual" [0, 21, 255] with
    | (Except.error e, tr) => (Except.error e, d, tr)
    | (Except.ok _, tr1) =>
      match run_iscsiadm env d.target_iqn d.target_portal ["--logout"] [0, 21, 255] with
      | (Except.error e, tr) => (Except.error e, d, tr1 ++ tr)
      | (Except.ok _, tr2) =>
        let r := run_iscsiadm env d.target_iqn d.target_portal
          ["--op", "delete"] [0, 21, 255]
        (r.1, d, tr1 ++ tr2 ++ r.2)
  else
    match d.target_lun with
    | none => (Except.ok (), d, [])
    | some lun =>
      let host_device := device_stem ++ toString lun
      let delete_ctl_file :=
        "/sys/block/" ++ env.realpathBasename host_device ++ "/device/delete"
      if env.pathExistsAt 0 delete_ctl_file then
        (Except.ok (), d, [Effect.cpDeleteWrite delete_ctl_file "1"])
      else (Except.ok (), d, [])

end LibvirtISCSIVolumeDriver

/-- The name passed to the synchronization decorator on
`LibvirtISCSIVolumeDriver.connect_volume`
(`@utils.synchronized('connect_volume')`), identifying the named lock
held for the duration of every iSCSI connect call. -/
def connect_volume_lock : String := "connect_volume"

/-- The name passed to the synchronization decorator on
`LibvirtISCSIVolumeDriver.disconnect_volume`
(`@utils.synchronized('connect_volume')`), identifying the named lock
held for the duration of every iSCSI disconnect call. -/
def disconnect_volume_lock : String := "connect_volume"

/-- True exactly on a `('--op', 'new')` (session create) invocation. -/
def isCreate : Effect → Bool
  | Effect.iscsiadm _ _ cmd => cmd == ["--op", "new"]
  | _ => false

/-- Number of session-create invocations in a trace. -/
def createCount (tr : List Effect) : Nat := (tr.filter isCreate).length

/-- True exactly on an external-tool (`iscsiadm`) invocation. -/
def isIscsiadmEffect : Effect → Bool
  | Effect.iscsiadm _ _ _ => true
  | _ => false

/-- Sample record data used by the concrete witness runs. -/
def sampleData : ConnData :=
  { volume_id := "vol-a", target_portal := "10.0.0.5:3260", target_iqn := "iqn.t",
    target_lun := some 0, auth_method := none, auth_username := "",
    auth_password := "", device_path := "", name := "", auth_enabled := false,
    secret_type := "", secret_uuid := "" }

/-- Sample connection record used by the concrete witness runs. -/
def sampleCi : ConnectionInfo :=
  { driver_volume_type := "iscsi", data := sampleData, serial := none }

/-- Sample record without a LUN identifier. -/
def ciNoLun : ConnectionInfo :=
  { sampleCi with data := { sampleData with target_lun := none } }

/-- Sample flags used by the concrete witness runs. -/
def sampleFlags : Flags :=
  { volume_group := "nova-volumes", volume_name_template_pre := "volume-",
    volume_name_template_post := "", num_iscsi_scan_tries := 3 }

/-- Benign environment: every tool invocation exits 0, every filesystem
existence probe answers true, no links, no listed block devices. -/
def envAllOk : Env :=
  { exitCode := fun _ _ _ => 0, pathExistsAt := fun _ _ => true,
    islink := fun _ => false, realpathBasename := fun _ => "sdb",
    blockDevices := [], ec2VolId := fun _ => "vol-00000001",
    pickDiskDriverName := fun _ => "qemu" }

/-- Environment where the zero-argument session probe exits 21. -/
def c1EnvProbe21 : Env :=
  { envAllOk with exitCode := fun _ _ c => if c = [] then 21 else 0 }

/-- Environment where the zero-argument session probe exits 7. -/
def c1EnvProbe7 : Env :=
  { envAllOk with exitCode := fun _ _ c => if c = [] then 7 else 0 }

/-- Environment where no device path ever appears. -/
def c2EnvNever : Env := { envAllOk with pathExistsAt := fun _ _ => false }

/-- Environment where both legacy links exist. -/
def c3EnvLinks : Env := { envAllOk with islink := fun _ => true }

/-- Environment with a sibling LUN of `sampleCi`'s target still listed
as an active block device. -/
def c4EnvSibling : Env :=
  { envAllOk with
      blockDevices := ["/dev/disk/by-path/ip-10.0.0.5:3260-iscsi-iqn.t-lun-1"] }

/-- Environment with no active block devices (forces full teardown). -/
def c5EnvNoDevices : Env := envAllOk

/-- Environment with a sibling LUN still active, for the no-LUN
disconnect. -/
def c5EnvSibling : Env :=
  { envAllOk with
      blockDevices := ["/dev/disk/by-path/ip-10.0.0.5:3260-iscsi-iqn.t-lun-1"] }

/-- Environment where only the `node.startup automatic` update exits
255 and everything else exits 0. -/
def c7EnvAuto255 : Env :=
  { envAllOk with
      exitCode := fun _ _ c =>
        if c = ["--op", "update", "-n", "node.startup", "-v", "automatic"]
        then 255 else 0 }

/-- Environment where only the `node.startup manual` update exits 21
and everything else exits 0, with no active block devices. -/
def c7EnvManual21 : Env :=
  { envAllOk with
      exitCode := fun _ _ c =>
        if c = ["--op", "update", "-n", "node.startup", "-v", "manual"]
        then 21 else 0 }

/-- Environment where no device path ever appears, for the poller
error-payload runs. -/
def c8EnvNever : Env := { envAllOk with pathExistsAt := fun _ _ => false }

set_option maxRecDepth 16384

theorem isCreate_update (i p k v : String) :
    isCreate (Effect.iscsiadm i p ["--op", "update", "-n", k, "-v", v]) = false := rfl

theorem isCreate_login (i p : String) : isCreate (Effect.iscsiadm i p ["--login"]) = false := rfl

theorem isCreate_probe (i p : String) : isCreate (Effect.iscsiadm i p []) = false := rfl

theorem isCreate_rescan (i p : String) : isCreate (Effect.iscsiadm i p ["--rescan"]) = false := rfl

theorem isCreate_new (i p : String) : isCreate (Effect.iscsiadm i p ["--op", "new"]) = true := rfl

theorem isCreate_sleep (n : Nat) : isCreate (Effect.sleep n) = false := rfl

theorem createCount_append (a b : List Effect) :
    createCount (a ++ b) = createCount a + createCount b := by
  simp [createCount, List.filter_append]

namespace LibvirtISCSIVolumeDriver

theorem waitLoop_effects (env : Env) (iqn portal dev : String) (maxTries : Nat) :
    ∀ fuel tries clock,
      ∀ eff ∈ (waitLoop env iqn portal dev maxTries fuel tries clock).2.2,
        eff = Effect.iscsiadm iqn portal ["--rescan"] ∨ ∃ n, eff = Effect.sleep n := by
  intro fuel
  induction fuel with
  | zero => intro tries clock eff h; simp [waitLoop] at h
  | succ f ih =>
    intro tries clock eff h
    simp only [waitLoop] at h
    by_cases h1 : env.pathExistsAt clock dev
    · simp [h1] at h
    · simp only [h1, if_false, Bool.false_eq_true, ite_false] at h
      by_cases h2 : maxTries ≤ tries
      · simp [h2] at h
      · simp only [h2, ite_false] at h
        by_cases h3 : env.exitCode iqn portal ["--rescan"] ∈ [0]
        · simp only [run_iscsiadm, h3, ite_true] at h
          by_cases h4 : env.pathExistsAt (clock + 1) dev
          · simp only [h4, ite_true] at h
            rcases List.mem_append.1 h with h5 | h5
            · left; simpa using h5
            · exact ih (tries + 1) (clock + 2) eff h5
          · simp only [h4, ite_false] at h
            rcases List.mem_append.1 h with h5 | h5
            · left; simpa using h5
            · rcases List.mem_cons.1 h5 with h6 | h6
              · right; exact ⟨_, h6⟩
              · exact ih (tries + 1) (clock + 2) eff h6
        · simp only [run_iscsiadm, h3, ite_false] at h
          left; simpa using h

theorem probe_or_new_0 (env : Env) (iqn portal : String)
    (h : env.exitCode iqn portal [] = 0) :
    probe_or_new env iqn portal = (Except.ok (), [Effect.iscsiadm iqn portal []]) := by
  simp [probe_or_new, run_iscsiadm, h]

theorem probe_or_new_21_255 (env : Env) (iqn portal : String)
    (h : env.exitCode iqn portal [] = 21 ∨ env.exitCode iqn portal [] = 255) :
    probe_or_new env iqn portal =
      ((run_iscsiadm env iqn portal ["--op", "new"] [0]).1,
       [Effect.iscsiadm iqn portal [], Effect.iscsiadm iqn portal ["--op", "new"]]) := by
  have h0 : ¬ env.exitCode iqn portal [] = 0 := by
    rcases h with h | h <;> simp [h]
  simp [probe_or_new, run_iscsiadm, h0]
  rcases h with h | h <;> simp [h]

theorem probe_or_new_other (env : Env) (iqn portal : String)
    (h0 : ¬ env.exitCode iqn portal [] = 0)
    (h21 : ¬ env.exitCode iqn portal [] = 21)
    (h255 : ¬ env.exitCode iqn portal [] = 255) :
    probe_or_new env iqn portal =
      (Except.error (Err.processExecutionError (env.exitCode iqn portal [])),
       [Effect.iscsiadm iqn portal []]) := by
  simp [probe_or_new, run_iscsiadm, h0, h21, h255]

theorem createCount_waitLoop (env : Env) (iqn portal dev : String)
    (maxTries fuel tries clock : Nat) :
    createCount (waitLoop env iqn portal dev maxTries fuel tries clock).2.2 = 0 := by
  rw [createCount, List.length_eq_zero, List.filter_eq_nil_iff]
  intro a ha
  rcases waitLoop_effects env iqn portal dev maxTries fuel tries clock a ha with h | ⟨n, h⟩
  · rw [h, isCreate_rescan]; simp
  · rw [h, isCreate_sleep]; simp

theorem createCount_apply_auth (env : Env) (d : ConnData) :
    createCount (apply_auth env d).2 = 0 := by
  rcases hm : d.auth_method with _ | m
  · simp [apply_auth, hm, createCount]
  · by_cases h1 : env.exitCode d.target_iqn d.target_portal
        ["--op", "update", "-n", "node.session.auth.authmethod", "-v", m] = 0
    · by_cases h2 : env.exitCode d.target_iqn d.target_portal
          ["--op", "update", "-n", "node.session.auth.username", "-v", d.auth_username] = 0
      · simp [apply_auth, hm, iscsiadm_update, run_iscsiadm, h1, h2, createCount,
              List.filter, isCreate_update]
      · simp [apply_auth, hm, iscsiadm_update, run_iscsiadm, h1, h2, createCount,
              List.filter, isCreate_update]
    · simp [apply_auth, hm, iscsiadm_update, run_iscsiadm, h1, createCount,
            List.filter, isCreate_update]

theorem apply_auth_trace_lb (env : Env) (d : ConnData) (m : String)
    (hm : d.auth_method = some m) : 1 ≤ (apply_auth env d).2.length := by
  by_cases h1 : env.exitCode d.target_iqn d.target_portal
      ["--op", "update", "-n", "node.session.auth.authmethod", "-v", m] = 0
  · by_cases h2 : env.exitCode d.target_iqn d.target_portal
        ["--op", "update", "-n", "node.session.auth.username", "-v", d.auth_username] = 0
    · simp [apply_auth, hm, iscsiadm_update, run_iscsiadm, h1, h2]
    · simp [apply_auth, hm, iscsiadm_update, run_iscsiadm, h1, h2]
  · simp [apply_auth, hm, iscsiadm_update, run_iscsiadm, h1]

theorem pre_stages_decomp (env : Env) (d : ConnData) :
    ∃ rest, (pre_stages env d).2 = (probe_or_new env d.target_iqn d.target_portal).2 ++ rest
      ∧ createCount rest = 0
      ∧ ((probe_or_new env d.target_iqn d.target_portal).1 = Except.ok () → 1 ≤ rest.length) := by
  rcases hpo : probe_or_new env d.target_iqn d.target_portal with ⟨res, tr⟩
  cases res with
  | error e =>
    refine ⟨[], by simp [pre_stages, hpo], by simp [createCount], by simp⟩
  | ok u =>
    cases u
    rcases hau : apply_auth env d with ⟨resa, tra⟩
    have hca : createCount tra = 0 := by
      have h := createCount_apply_auth env d
      rw [hau] at h; exact h
    cases resa with
    | error e =>
      refine ⟨tra, by simp [pre_stages, hpo, hau], hca, ?_⟩
      intro _
      rcases hm : d.auth_method with _ | m
      · rw [apply_auth, hm] at hau
        cases hau
      · have h := apply_auth_trace_lb env d m hm
        rw [hau] at h; exact h
    | ok u =>
      cases u
      by_cases hl : env.exitCode d.target_iqn d.target_portal ["--login"] ∈ ([0, 255] : List Nat)
      · refine ⟨tra ++ [Effect.iscsiadm d.target_iqn d.target_portal ["--login"]] ++
          (iscsiadm_update env d.target_iqn d.target_portal "node.startup" "automatic" [0]).2,
          ?_, ?_, ?_⟩
        · simp [pre_stages, hpo, hau, run_iscsiadm, hl, iscsiadm_update]
        · rw [createCount_append, createCount_append, hca]
          simp [createCount, List.filter, isCreate_login, iscsiadm_update, run_iscsiadm,
                isCreate_update]
        · intro _
          simp only [List.length_append, List.length_singleton]
          omega
      · refine ⟨tra ++ [Effect.iscsiadm d.target_iqn d.target_portal ["--login"]], ?_, ?_, ?_⟩
        · simp [pre_stages, hpo, hau, run_iscsiadm, hl]
        · rw [createCount_append, hca]
          simp [createCount, List.filter, isCreate_login]
        · intro _
          simp only [List.length_append, List.length_singleton]
          omega

theorem pre_stages_probe_error (env : Env) (d : ConnData) (e : Err) (tr : List Effect)
    (h : probe_or_new env d.target_iqn d.target_portal = (Except.error e, tr)) :
    pre_stages env d = (Except.error e, tr) := by
  simp [pre_stages, h]

theorem connect_volume_pre_error (flags : Flags) (env : Env) (ci : ConnectionInfo)
    (md : String) (e : Err) (tr : List Effect)
    (h : pre_stages env ci.data = (Except.error e, tr)) :
    connect_volume flags env ci md = (Except.error e, ci.data, tr) := by
  simp [connect_volume, h]

theorem connect_volume_decomp (flags : Flags) (env : Env) (ci : ConnectionInfo)
    (md : String) :
    ∃ rest, (connect_volume flags env ci md).2.2 =
        (pre_stages env ci.data).2 ++ rest ∧ createCount rest = 0 := by
  rcases hps : pre_stages env ci.data with ⟨res, tr⟩
  cases res with
  | error e =>
    exact ⟨[], by simp [connect_volume, hps], by simp [createCount]⟩
  | ok u =>
    cases u
    by_cases hec : env.pathExistsAt 0 (ec2Path flags env ci.data.volume_id)
    · rcases hw : waitForDevice env
          (migratedIqn flags (ec2Path flags env ci.data.volume_id))
          ci.data.target_portal (ec2Path flags env ci.data.volume_id)
          flags.num_iscsi_scan_tries 1 with ⟨resw, cl, trw⟩
      have hcw : createCount trw = 0 := by
        have h := createCount_waitLoop env
          (migratedIqn flags (ec2Path flags env ci.data.volume_id))
          ci.data.target_portal (ec2Path flags env ci.data.volume_id)
          flags.num_iscsi_scan_tries (flags.num_iscsi_scan_tries + 1) 0 1
        rw [waitForDevice] at hw
        rw [hw] at h; exact h
      refine ⟨trw, ?_, hcw⟩
      cases resw <;> simp [connect_volume, hps, hec, hw]
    · rcases hw : waitForDevice env ci.data.target_iqn ci.data.target_portal
          (byPathDevice ci.data.target_portal ci.data.target_iqn (ci.data.target_lun.getD 0))
          flags.num_iscsi_scan_tries 1 with ⟨resw, cl, trw⟩
      have hcw : createCount trw = 0 := by
        have h := createCount_waitLoop env ci.data.target_iqn ci.data.target_portal
          (byPathDevice ci.data.target_portal ci.data.target_iqn (ci.data.target_lun.getD 0))
          flags.num_iscsi_scan_tries (flags.num_iscsi_scan_tries + 1) 0 1
        rw [waitForDevice] at hw
        rw [hw] at h; exact h
      refine ⟨trw, ?_, hcw⟩
      cases resw <;> simp [connect_volume, hps, hec, hw]

theorem iscsi_disconnect_data (env : Env) (ci : ConnectionInfo) (md : String) :
    (disconnect_volume env ci md).2.1 = ci.data := by
  simp only [disconnect_volume]
  split
  · split
    · rfl
    · split
      · rfl
      · rfl
  · split
    · rfl
    · split
      · rfl
      · rfl

end LibvirtISCSIVolumeDriver

open LibvirtISCSIVolumeDriver in
/-- C1: for every iSCSI connect, the initial zero-argument session
probe determines what happens next.  (i) Probe exit 0: no `--op new`
invocation appears anywhere in the connect's trace.  (ii) Probe exit 21
or 255: exactly one create invocation is issued, the trace begins with
the probe followed by the create, and when the create succeeds the
connect proceeds to further invocations.  (iii) Any other exit code:
the process-execution error (the specification's `InitiatorToolError`)
propagates out of the connect, the record data is untouched, and the
trace is the lone probe — no auth update, login, startup-mode update or
device-poll rescan executes. -/
theorem c1_probe_dispatch (flags : Flags) (env : Env) (ci : ConnectionInfo) (md : String) :
    (env.exitCode ci.data.target_iqn ci.data.target_portal [] = 0 →
      createCount (connect_volume flags env ci md).2.2 = 0)
    ∧ ((env.exitCode ci.data.target_iqn ci.data.target_portal [] = 21 ∨
        env.exitCode ci.data.target_iqn ci.data.target_portal [] = 255) →
      createCount (connect_volume flags env ci md).2.2 = 1
      ∧ (connect_volume flags env ci md).2.2.take 2 =
          [Effect.iscsiadm ci.data.target_iqn ci.data.target_portal [],
           Effect.iscsiadm ci.data.target_iqn ci.data.target_portal ["--op", "new"]]
      ∧ (env.exitCode ci.data.target_iqn ci.data.target_portal ["--op", "new"] = 0 →
          3 ≤ (connect_volume flags env ci md).2.2.length))
    ∧ (¬ env.exitCode ci.data.target_iqn ci.data.target_portal [] = 0 →
       ¬ env.exitCode ci.data.target_iqn ci.data.target_portal [] = 21 →
       ¬ env.exitCode ci.data.target_iqn ci.data.target_portal [] = 255 →
      connect_volume flags env ci md =
        (Except.error (Err.processExecutionError
          (env.exitCode ci.data.target_iqn ci.data.target_portal [])),
         ci.data,
         [Effect.iscsiadm ci.data.target_iqn ci.data.target_portal []])) := by
  obtain ⟨rest1, hr1, hc1, hlb⟩ := pre_stages_decomp env ci.data
  obtain ⟨rest2, hr2, hc2⟩ := connect_volume_decomp flags env ci md
  refine ⟨?_, ?_, ?_⟩
  · intro h
    rw [hr2, createCount_append, hr1, createCount_append,
        probe_or_new_0 env _ _ h, hc1, hc2]
    simp [createCount, List.filter, isCreate_probe]
  · intro h
    have hpo := probe_or_new_21_255 env ci.data.target_iqn ci.data.target_portal h
    refine ⟨?_, ?_, ?_⟩
    · rw [hr2, createCount_append, hr1, createCount_append, hpo, hc1, hc2]
      simp [createCount, List.filter, isCreate_probe, isCreate_new]
    · rw [hr2, hr1, hpo]
      simp
    · intro hnew
      have hok : (probe_or_new env ci.data.target_iqn ci.data.target_portal).1 =
          Except.ok () := by
        rw [hpo]
        simp [run_iscsiadm, hnew]
      have h1 := hlb hok
      rw [hr2, hr1, hpo]
      simp only [List.length_append, List.length_cons, List.length_nil]
      omega
  · intro h0 h21 h255
    have hpo := probe_or_new_other env ci.data.target_iqn ci.data.target_portal h0 h21 h255
    exact connect_volume_pre_error flags env ci md _ _
      (pre_stages_probe_error env ci.data _ _ hpo)

open LibvirtISCSIVolumeDriver in
/-- C1 witness: with the probe exiting 21 exactly one create invocation
is issued; with the probe exiting 7 the connect fails with exit code 7
after the lone probe invocation. -/
theorem c1_probe_dispatch_witness :
    createCount (connect_volume sampleFlags c1EnvProbe21 sampleCi "vdb").2.2 = 1
    ∧ connect_volume sampleFlags c1EnvProbe7 sampleCi "vdb" =
        (Except.error (Err.processExecutionError 7), sampleCi.data,
         [Effect.iscsiadm "iqn.t" "10.0.0.5:3260" []]) :=
  ⟨((c1_probe_dispatch sampleFlags c1EnvProbe21 sampleCi "vdb").2.1
      (Or.inl (by decide))).1,
   ((c1_probe_dispatch sampleFlags c1EnvProbe7 sampleCi "vdb").2.2
      (by decide) (by decide) (by decide)).trans (by decide)⟩

open LibvirtISCSIVolumeDriver in
/-- C2: with maxTries = 3 and a device path whose existence check never
answers true, the device-wait loop issues exactly 3 rescan invocations,
sleeping 1, 4 and 9 time units after the 1st, 2nd and 3rd rescans, and
then fails with the device-not-found error. -/
theorem c2_poller_bound (env : Env) (iqn portal dev : String) (clock : Nat)
    (h1 : ∀ k, env.pathExistsAt k dev = false)
    (h2 : env.exitCode iqn portal ["--rescan"] = 0) :
    waitForDevice env iqn portal dev 3 clock =
      (Except.error (Err.novaException ("iSCSI device not found at " ++ dev)), clock + 7,
       [Effect.iscsiadm iqn portal ["--rescan"], Effect.sleep 1,
        Effect.iscsiadm iqn portal ["--rescan"], Effect.sleep 4,
        Effect.iscsiadm iqn portal ["--rescan"], Effect.sleep 9]) := by
  norm_num [waitForDevice, waitLoop, h1, h2, run_iscsiadm]

open LibvirtISCSIVolumeDriver in
/-- C2 witness: a concrete never-appearing device path with rescans
exiting 0 produces exactly the three-rescan quadratic-backoff trace and
the device-not-found error. -/
theorem c2_poller_bound_witness :
    waitForDevice c2EnvNever "iqn.t" "10.0.0.5:3260" "/dev/x" 3 0 =
      (Except.error (Err.novaException "iSCSI device not found at /dev/x"), 7,
       [Effect.iscsiadm "iqn.t" "10.0.0.5:3260" ["--rescan"], Effect.sleep 1,
        Effect.iscsiadm "iqn.t" "10.0.0.5:3260" ["--rescan"], Effect.sleep 4,
        Effect.iscsiadm "iqn.t" "10.0.0.5:3260" ["--rescan"], Effect.sleep 9]) :=
  (c2_poller_bound c2EnvNever "iqn.t" "10.0.0.5:3260" "/dev/x" 0
    (fun _ => rfl) rfl).trans (by decide)

/-- C3: the base block connect resolves its source path by fixed
precedence — the UUID-template link when it exists, otherwise the
EC2-style legacy link when it exists, otherwise the record's canonical
`device_path`.  In particular, when both links exist the UUID-template
path wins (first conjunct, whose hypothesis says nothing about the
legacy link). -/
theorem c3_source_path_precedence (flags : Flags) (env : Env) (ci : ConnectionInfo)
    (md : String) :
    (env.islink (uuidPath flags ci.data.volume_id) = true →
      (LibvirtVolumeDriver.connect_volume flags env ci md).1.source_path =
        uuidPath flags ci.data.volume_id)
    ∧ (env.islink (uuidPath flags ci.data.volume_id) = false →
       env.islink (ec2Path flags env ci.data.volume_id) = true →
      (LibvirtVolumeDriver.connect_volume flags env ci md).1.source_path =
        ec2Path flags env ci.data.volume_id)
    ∧ (env.islink (uuidPath flags ci.data.volume_id) = false →
       env.islink (ec2Path flags env ci.data.volume_id) = false →
      (LibvirtVolumeDriver.connect_volume flags env ci md).1.source_path =
        ci.data.device_path) := by
  refine ⟨fun h1 => ?_, fun h1 h2 => ?_, fun h1 h2 => ?_⟩ <;>
    simp [LibvirtVolumeDriver.connect_volume, h1]
  · simp [h2]
  · simp [h2]

/-- C3 witness: in an environment where both the UUID-template link and
the EC2-style legacy link exist, the resolved source path is the
UUID-template path. -/
theorem c3_source_path_precedence_witness :
    (LibvirtVolumeDriver.connect_volume sampleFlags c3EnvLinks sampleCi "vdb").1.source_path =
      "/dev/nova-volumes/volume-vol-a" :=
  ((c3_source_path_precedence sampleFlags c3EnvLinks sampleCi "vdb").1
    (by decide)).trans (by decide)

open LibvirtISCSIVolumeDriver in
/-- C4: when the active-block-device listing still contains a device
with this (portal, IQN)'s LUN stem, the disconnect issues no external
tool invocation at all (second conjunct — so no startup-mode-to-manual
update, no logout, no session delete), and when the record carries a
LUN the entire outcome is a successful return whose only effect is the
single "1" write into that LUN device's sysfs deletion control file,
issued exactly when that control file exists (first conjunct). -/
theorem c4_sibling_teardown_safety (env : Env) (ci : ConnectionInfo) (md : String)
    (h1 : (env.blockDevices.filter (fun dev =>
        strStartsWith dev (lunPathStem ci.data.target_portal ci.data.target_iqn))).isEmpty
        = false) :
    (∀ lun, ci.data.target_lun = some lun →
      disconnect_volume env ci md =
        (Except.ok (), ci.data,
         if env.pathExistsAt 0 ("/sys/block/" ++
              env.realpathBasename (lunPathStem ci.data.target_portal ci.data.target_iqn
                ++ toString lun) ++ "/device/delete") = true
         then [Effect.cpDeleteWrite ("/sys/block/" ++
              env.realpathBasename (lunPathStem ci.data.target_portal ci.data.target_iqn
                ++ toString lun) ++ "/device/delete") "1"]
         else []))
    ∧ (∀ eff ∈ (disconnect_volume env ci md).2.2, isIscsiadmEffect eff = false) := by
  constructor
  · intro lun h2
    simp only [disconnect_volume, h1, h2, Bool.false_eq_true, if_false]
    split <;> rfl
  · intro eff h
    rcases hl : ci.data.target_lun with _ | lun
    · simp [disconnect_volume, h1, hl] at h
    · simp only [disconnect_volume, h1, hl, Bool.false_eq_true, if_false] at h
      split at h
      · simp at h
        rw [h]
        rfl
      · simp at h

open LibvirtISCSIVolumeDriver in
/-- C4 witness: with a sibling LUN still listed and the control file
present, disconnecting LUN 0 returns successfully with the single
control-file write as its only effect. -/
theorem c4_sibling_teardown_safety_witness :
    disconnect_volume c4EnvSibling sampleCi "vdb" =
      (Except.ok (), sampleCi.data,
       [Effect.cpDeleteWrite "/sys/block/sdb/device/delete" "1"]) :=
  ((c4_sibling_teardown_safety c4EnvSibling sampleCi "vdb" (by decide)).1
    0 (by decide)).trans (by decide)

open LibvirtISCSIVolumeDriver in
/-- C5 counterexample: a disconnect whose record has no LUN identifier
but whose (portal, IQN) has no remaining active devices does NOT return
without action — it performs the full teardown, issuing the manual
startup update, the logout and the session delete. -/
theorem c5_no_lun_counterexample :
    (disconnect_volume c5EnvNoDevices ciNoLun "vdb").2.2 =
      [Effect.iscsiadm "iqn.t" "10.0.0.5:3260"
         ["--op", "update", "-n", "node.startup", "-v", "manual"],
       Effect.iscsiadm "iqn.t" "10.0.0.5:3260" ["--logout"],
       Effect.iscsiadm "iqn.t" "10.0.0.5:3260" ["--op", "delete"]]
    ∧ (disconnect_volume c5EnvNoDevices ciNoLun "vdb").2.2 ≠ [] := by
  decide

open LibvirtISCSIVolumeDriver in
/-- C5 (amended): a disconnect whose record has no LUN identifier
returns without performing any action only when the active-device
listing still contains a device with this (portal, IQN)'s LUN stem;
in that case the result is a successful no-effect return. -/
theorem c5_no_lun_amended (env : Env) (ci : ConnectionInfo) (md : String)
    (h1 : ci.data.target_lun = none)
    (h2 : (env.blockDevices.filter (fun dev =>
        strStartsWith dev (lunPathStem ci.data.target_portal ci.data.target_iqn))).isEmpty
        = false) :
    disconnect_volume env ci md = (Except.ok (), ci.data, []) := by
  simp [disconnect_volume, h1, h2]

open LibvirtISCSIVolumeDriver in
/-- C5 (amended) witness: with a sibling device still active and no LUN
in the record, the disconnect returns successfully with no effect. -/
theorem c5_no_lun_amended_witness :
    disconnect_volume c5EnvSibling ciNoLun "vdb" = (Except.ok (), ciNoLun.data, []) :=
  c5_no_lun_amended c5EnvSibling ciNoLun "vdb" (by decide) (by decide)

open LibvirtISCSIVolumeDriver in
/-- C6 counterexample: a normally-returning iSCSI connect leaves the
caller's record data changed — the in-place mutation of
`connection_info['data']` is visible to the caller, contradicting the
claim that the record is unchanged for every connector variant. -/
theorem c6_record_frame_counterexample :
    (connect_volume sampleFlags envAllOk sampleCi "vdb").2.1 ≠ sampleCi.data := by
  decide

open LibvirtISCSIVolumeDriver in
/-- C6 (amended): the caller-supplied record is unchanged by the base,
fake and network connects, by the base disconnect and by the iSCSI
disconnect; the iSCSI connect, however, mutates the record data in
place, and the mutation is confined to `device_path` and `target_iqn`:
every other field of the data bag is preserved on every path, normal or
erroneous. -/
theorem c6_record_frame_amended (flags : Flags) (env : Env) (ci : ConnectionInfo)
    (md : String) :
    (LibvirtVolumeDriver.connect_volume flags env ci md).2 = ci.data
    ∧ (LibvirtFakeVolumeDriver.connect_volume ci md).2 = ci.data
    ∧ (LibvirtNetVolumeDriver.connect_volume env ci md).2 = ci.data
    ∧ LibvirtVolumeDriver.disconnect_volume ci md = ci.data
    ∧ (LibvirtISCSIVolumeDriver.disconnect_volume env ci md).2.1 = ci.data
    ∧ ((LibvirtISCSIVolumeDriver.connect_volume flags env ci md).2.1.volume_id =
          ci.data.volume_id
       ∧ (LibvirtISCSIVolumeDriver.connect_volume flags env ci md).2.1.target_portal =
          ci.data.target_portal
       ∧ (LibvirtISCSIVolumeDriver.connect_volume flags env ci md).2.1.target_lun =
          ci.data.target_lun
       ∧ (LibvirtISCSIVolumeDriver.connect_volume flags env ci md).2.1.auth_method =
          ci.data.auth_method
       ∧ (LibvirtISCSIVolumeDriver.connect_volume flags env ci md).2.1.auth_username =
          ci.data.auth_username
       ∧ (LibvirtISCSIVolumeDriver.connect_volume flags env ci md).2.1.auth_password =
          ci.data.auth_password
       ∧ (LibvirtISCSIVolumeDriver.connect_volume flags env ci md).2.1.name =
          ci.data.name
       ∧ (LibvirtISCSIVolumeDriver.connect_volume flags env ci md).2.1.auth_enabled =
          ci.data.auth_enabled
       ∧ (LibvirtISCSIVolumeDriver.connect_volume flags env ci md).2.1.secret_type =
          ci.data.secret_type
       ∧ (LibvirtISCSIVolumeDriver.connect_volume flags env ci md).2.1.secret_uuid =
          ci.data.secret_uuid) := by
  refine ⟨rfl, rfl, ?_, rfl, iscsi_disconnect_data env ci md, ?_⟩
  · cases hb : ci.data.auth_enabled <;>
      simp [LibvirtNetVolumeDriver.connect_volume, hb]
  · rcases hps : pre_stages env ci.data with ⟨res, tr⟩
    cases res with
    | error e =>
      rw [connect_volume_pre_error flags env ci md e tr hps]
      simp
    | ok u =>
      cases u
      by_cases hec : env.pathExistsAt 0 (ec2Path flags env ci.data.volume_id)
      · rcases hw : waitForDevice env
            (migratedIqn flags (ec2Path flags env ci.data.volume_id))
            ci.data.target_portal (ec2Path flags env ci.data.volume_id)
            flags.num_iscsi_scan_tries 1 with ⟨resw, cl, trw⟩
        cases resw <;>
          simp [LibvirtISCSIVolumeDriver.connect_volume, hps, hec, hw]
      · rcases hw : waitForDevice env ci.data.target_iqn ci.data.target_portal
            (byPathDevice ci.data.target_portal ci.data.target_iqn
              (ci.data.target_lun.getD 0))
            flags.num_iscsi_scan_tries 1 with ⟨resw, cl, trw⟩
        cases resw <;>
          simp [LibvirtISCSIVolumeDriver.connect_volume, hps, hec, hw]

open LibvirtISCSIVolumeDriver in
/-- C7 counterexample: the `node.startup automatic` update issued
during iSCSI connect does NOT tolerate exit code 255 — the connect
raises the process-execution error, refuting the claim that every
startup-mode update tolerates 0, 21 and 255. -/
theorem c7_startup_tolerance_counterexample :
    (connect_volume sampleFlags c7EnvAuto255 sampleCi "vdb").1 =
      Except.error (Err.processExecutionError 255) := by
  decide

open LibvirtISCSIVolumeDriver in
/-- C7 (amended): only the `node.startup manual` update issued during
full teardown tolerates exit codes 0, 21 and 255 — under any of those
codes the disconnect proceeds past it to the logout invocation (first
conjunct).  The `node.startup automatic` update issued during connect
succeeds exactly when the tool exits 0 (second conjunct), so exit
codes 21 and 255 make it raise. -/
theorem c7_startup_tolerance_amended (env : Env) (ci : ConnectionInfo) (md : String)
    (h1 : (env.blockDevices.filter (fun dev =>
        strStartsWith dev (lunPathStem ci.data.target_portal ci.data.target_iqn))).isEmpty
        = true)
    (h2 : env.exitCode ci.data.target_iqn ci.data.target_portal
        ["--op", "update", "-n", "node.startup", "-v", "manual"] ∈ ([0, 21, 255] : List Nat)) :
    (disconnect_volume env ci md).2.2.take 2 =
      [Effect.iscsiadm ci.data.target_iqn ci.data.target_portal
        ["--op", "update", "-n", "node.startup", "-v", "manual"],
       Effect.iscsiadm ci.data.target_iqn ci.data.target_portal ["--logout"]]
    ∧ ((iscsiadm_update env ci.data.target_iqn ci.data.target_portal
          "node.startup" "automatic" [0]).1 = Except.ok ()
        ↔ env.exitCode ci.data.target_iqn ci.data.target_portal
            ["--op", "update", "-n", "node.startup", "-v", "automatic"] = 0) := by
  constructor
  · by_cases h3 : env.exitCode ci.data.target_iqn ci.data.target_portal
        ["--logout"] ∈ ([0, 21, 255] : List Nat)
    · by_cases h4 : env.exitCode ci.data.target_iqn ci.data.target_portal
          ["--op", "delete"] ∈ ([0, 21, 255] : List Nat)
      · simp [disconnect_volume, h1, h2, h3, h4, iscsiadm_update, run_iscsiadm]
      · simp [disconnect_volume, h1, h2, h3, h4, iscsiadm_update, run_iscsiadm]
    · simp [disconnect_volume, h1, h2, h3, iscsiadm_update, run_iscsiadm]
  · constructor
    · intro h
      by_contra hne
      simp [iscsiadm_update, run_iscsiadm, hne] at h
    · intro h
      simp [iscsiadm_update, run_iscsiadm, h]

open LibvirtISCSIVolumeDriver in
/-- C7 (amended) witness: with the manual update exiting 21 during a
full teardown the disconnect proceeds to the logout, and with the
automatic update exiting 0 the connect-side update succeeds. -/
theorem c7_startup_tolerance_amended_witness :
    (disconnect_volume c7EnvManual21 sampleCi "vdb").2.2.take 2 =
      [Effect.iscsiadm "iqn.t" "10.0.0.5:3260"
        ["--op", "update", "-n", "node.startup", "-v", "manual"],
       Effect.iscsiadm "iqn.t" "10.0.0.5:3260" ["--logout"]]
    ∧ (iscsiadm_update c7EnvManual21 "iqn.t" "10.0.0.5:3260"
        "node.startup" "automatic" [0]).1 = Except.ok () :=
  ⟨((c7_startup_tolerance_amended c7EnvManual21 sampleCi "vdb"
      (by decide) (by decide)).1).trans (by decide),
   (c7_startup_tolerance_amended c7EnvManual21 sampleCi "vdb"
      (by decide) (by decide)).2.mpr (by decide)⟩

open LibvirtISCSIVolumeDriver in
/-- C8 counterexample: two device-wait runs that perform different
numbers of tries (1 rescan versus 3 rescans, visible in their traces)
raise the very same error value, whose message carries the attempted
path only — so the error cannot carry the number of tries performed,
refuting the claim. -/
theorem c8_error_payload_counterexample :
    (waitForDevice c8EnvNever "iqn.t" "10.0.0.5:3260" "/dev/x" 1 0).1 =
      (waitForDevice c8EnvNever "iqn.t" "10.0.0.5:3260" "/dev/x" 3 0).1
    ∧ (waitForDevice c8EnvNever "iqn.t" "10.0.0.5:3260" "/dev/x" 3 0).1 =
        Except.error (Err.novaException "iSCSI device not found at /dev/x")
    ∧ (waitForDevice c8EnvNever "iqn.t" "10.0.0.5:3260" "/dev/x" 1 0).2.2.length = 2
    ∧ (waitForDevice c8EnvNever "iqn.t" "10.0.0.5:3260" "/dev/x" 3 0).2.2.length = 6 := by
  decide

open LibvirtISCSIVolumeDriver in
/-- C8 (amended): whenever the device-wait loop exhausts its retry
budget, the raised error carries the attempted device path in its
message — and nothing else: the error value is the same for every
retry budget, so the try count is not part of it (it is only
logged). -/
theorem c8_error_payload_amended (env : Env) (iqn portal dev : String)
    (maxTries clock : Nat)
    (h1 : ∀ k, env.pathExistsAt k dev = false)
    (h2 : env.exitCode iqn portal ["--rescan"] = 0) :
    (waitForDevice env iqn portal dev maxTries clock).1 =
      Except.error (Err.novaException ("iSCSI device not found at " ++ dev)) := by
  have key : ∀ fuel tries c,
      (waitLoop env iqn portal dev maxTries fuel tries c).1 =
        Except.error (Err.novaException ("iSCSI device not found at " ++ dev)) := by
    intro fuel
    induction fuel with
    | zero => intro tries c; simp [waitLoop]
    | succ f ih =>
      intro tries c
      simp only [waitLoop, h1, Bool.false_eq_true, ite_false]
      by_cases h3 : maxTries ≤ tries
      · simp [h3]
      · simp only [h3, ite_false, run_iscsiadm, h2]
        simp [ih]
  exact key (maxTries + 1) 0 clock

open LibvirtISCSIVolumeDriver in
/-- C8 (amended) witness: a concrete exhausted run raises the error
whose message is exactly the attempted path prefixed by the fixed
text. -/
theorem c8_error_payload_amended_witness :
    (waitForDevice c8EnvNever "iqn.t" "10.0.0.5:3260" "/dev/y" 2 5).1 =
      Except.error (Err.novaException "iSCSI device not found at /dev/y") :=
  (c8_error_payload_amended c8EnvNever "iqn.t" "10.0.0.5:3260" "/dev/y" 2 5
    (fun _ => rfl) rfl).trans (by decide)

/-- C9 counterexample: the named lock on iSCSI connect and the named
lock on iSCSI disconnect are the same lock (both decorators name
'connect_volume'), refuting the claim that a separate lock scope
covers each operation kind. -/
theorem c9_lock_scope_counterexample :
    connect_volume_lock = disconnect_volume_lock := rfl

/-- C9 (amended): iSCSI connect and disconnect are serialized by one
single shared named lock — both the connect and the disconnect
decorator name the lock 'connect_volume', held for the duration of
each call, so connects and disconnects all serialize against each
other in one scope rather than per operation kind. -/
theorem c9_lock_scope_amended :
    connect_volume_lock = "connect_volume" ∧ disconnect_volume_lock = "connect_volume" :=
  ⟨rfl, rfl⟩

open LibvirtISCSIVolumeDriver in
/-- C10: when the EC2-style legacy device path exists (and the
straight-line head of the connect succeeded, here with no auth method
configured), the record's `target_iqn` is overwritten with
'iqn.2010-10.org.openstack:' followed by the volume name template with
the full EC2 device path substituted into it (first conjunct; see
`migratedIqn`), the connect's trace is the head invocations — issued
with the original IQN — followed by the device-wait trace over the EC2
device path (second conjunct), and every external-tool invocation of
that device-wait trace is a rescan selecting the target by the
rewritten IQN (third conjunct). -/
theorem c10_ec2_iqn_rewrite (flags : Flags) (env : Env) (ci : ConnectionInfo) (md : String)
    (h1 : env.exitCode ci.data.target_iqn ci.data.target_portal [] = 0)
    (h2 : ci.data.auth_method = none)
    (h3 : env.exitCode ci.data.target_iqn ci.data.target_portal ["--login"] = 0)
    (h4 : env.exitCode ci.data.target_iqn ci.data.target_portal
        ["--op", "update", "-n", "node.startup", "-v", "automatic"] = 0)
    (h5 : env.pathExistsAt 0 (ec2Path flags env ci.data.volume_id) = true) :
    (connect_volume flags env ci md).2.1.target_iqn =
      migratedIqn flags (ec2Path flags env ci.data.volume_id)
    ∧ (connect_volume flags env ci md).2.2 =
      [Effect.iscsiadm ci.data.target_iqn ci.data.target_portal [],
       Effect.iscsiadm ci.data.target_iqn ci.data.target_portal ["--login"],
       Effect.iscsiadm ci.data.target_iqn ci.data.target_portal
         ["--op", "update", "-n", "node.startup", "-v", "automatic"]]
      ++ (waitForDevice env (migratedIqn flags (ec2Path flags env ci.data.volume_id))
            ci.data.target_portal (ec2Path flags env ci.data.volume_id)
            flags.num_iscsi_scan_tries 1).2.2
    ∧ (∀ eff ∈ (waitForDevice env (migratedIqn flags (ec2Path flags env ci.data.volume_id))
            ci.data.target_portal (ec2Path flags env ci.data.volume_id)
            flags.num_iscsi_scan_tries 1).2.2,
        eff = Effect.iscsiadm (migratedIqn flags (ec2Path flags env ci.data.volume_id))
                ci.data.target_portal ["--rescan"]
        ∨ ∃ n, eff = Effect.sleep n) := by
  have hps : pre_stages env ci.data =
      (Except.ok (),
       [Effect.iscsiadm ci.data.target_iqn ci.data.target_portal [],
        Effect.iscsiadm ci.data.target_iqn ci.data.target_portal ["--login"],
        Effect.iscsiadm ci.data.target_iqn ci.data.target_portal
          ["--op", "update", "-n", "node.startup", "-v", "automatic"]]) := by
    rw [pre_stages, probe_or_new_0 env _ _ h1]
    simp [apply_auth, h2, iscsiadm_update, run_iscsiadm, h3, h4]
  refine ⟨?_, ?_, ?_⟩
  · rcases hw : waitForDevice env
        (migratedIqn flags (ec2Path flags env ci.data.volume_id))
        ci.data.target_portal (ec2Path flags env ci.data.volume_id)
        flags.num_iscsi_scan_tries 1 with ⟨resw, cl, trw⟩
    cases resw <;>
      simp [connect_volume, hps, h5, hw]
  · rcases hw : waitForDevice env
        (migratedIqn flags (ec2Path flags env ci.data.volume_id))
        ci.data.target_portal (ec2Path flags env ci.data.volume_id)
        flags.num_iscsi_scan_tries 1 with ⟨resw, cl, trw⟩
    cases resw <;>
      simp [connect_volume, hps, h5, hw]
  · intro eff h
    rw [waitForDevice] at h
    exact waitLoop_effects env _ _ _ _ _ _ _ eff h

open LibvirtISCSIVolumeDriver in
/-- C10 witness: in a concrete run where the EC2 legacy path exists,
the record's IQN afterwards is the literal
'iqn.2010-10.org.openstack:' ++ template with the full EC2 device path
substituted in. -/
theorem c10_ec2_iqn_rewrite_witness :
    (connect_volume sampleFlags envAllOk sampleCi "vdb").2.1.target_iqn =
      "iqn.2010-10.org.openstack:volume-/dev/nova-volumes/vol-00000001" :=
  ((c10_ec2_iqn_rewrite sampleFlags envAllOk sampleCi "vdb"
      rfl rfl rfl rfl rfl).1).trans (by decide)

end NovaVolume
